import Mathlib

/-!
# onclite device tree: vibrator HAL and vendor init

A shallow embedding of

* `vibrator/Vibrator.cpp`  (the `V1_3::implementation::Vibrator` HIDL service),
* `init/init_onclite.cpp` and `libinit/init_onclite.cpp` (variant resolution
  and property overrides),

together with the properties of these programs that the specification states.

Conventions.  Member functions take the receiver (`self`) explicitly and return
the updated receiver.  The sysfs directory is represented by the ordered log of
write attempts, each with its outcome; the outcome of an attempt is given by an
arbitrary oracle over the history, the path and the content.  Unsigned 32-bit
arithmetic is `Nat` arithmetic reduced modulo `2 ^ 32`.
-/

namespace VibratorHal

/-- Status codes of `android::hardware::vibrator::V1_0::Status`. -/
inductive Status
  | OK
  | UNKNOWN_ERROR
  | BAD_VALUE
  | UNSUPPORTED_OPERATION
  deriving DecidableEq, Repr

/-- Numeric value of a `V1_3::Effect` (`enum class Effect : uint32_t`). -/
abbrev Effect := Nat

/-- Numeric value of a `V1_0::EffectStrength` (`enum class EffectStrength : uint8_t`). -/
abbrev EffectStrength := Nat

namespace Effect

/-- Modelled from the spec: the enumerators of `V1_3::Effect` come from the HIDL
interface headers, which are not part of this tree; the known set is the 22
effects `CLICK .. TEXTURE_TICK`, numbered `0 .. 21`. -/
def CLICK : Effect := 0
def DOUBLE_CLICK : Effect := 1
def TICK : Effect := 2
def THUD : Effect := 3
def POP : Effect := 4
def HEAVY_CLICK : Effect := 5
def RINGTONE_1 : Effect := 6
def RINGTONE_2 : Effect := 7
def RINGTONE_3 : Effect := 8
def RINGTONE_4 : Effect := 9
def RINGTONE_5 : Effect := 10
def RINGTONE_6 : Effect := 11
def RINGTONE_7 : Effect := 12
def RINGTONE_8 : Effect := 13
def RINGTONE_9 : Effect := 14
def RINGTONE_10 : Effect := 15
def RINGTONE_11 : Effect := 16
def RINGTONE_12 : Effect := 17
def RINGTONE_13 : Effect := 18
def RINGTONE_14 : Effect := 19
def RINGTONE_15 : Effect := 20
def TEXTURE_TICK : Effect := 21

end Effect

namespace EffectStrength

/-- Modelled from the spec: the enumerators of `V1_0::EffectStrength` come from
the HIDL interface headers, which are not part of this tree. -/
def LIGHT : EffectStrength := 0
def MEDIUM : EffectStrength := 1
def STRONG : EffectStrength := 2

end EffectStrength

/-- The effect enumerations of the four interface versions. -/
inductive EffectEnum
  | V1_0_Effect
  | V1_1_Effect_1_1
  | V1_2_Effect
  | V1_3_Effect
  deriving DecidableEq, Repr

/-- Modelled from the spec: `hidl_enum_range<T>()` is generated from the HIDL
interface headers, which are not part of this tree.  It lists the enumerators
of `T` in increasing numeric order: `0..1` for `V1_0::Effect`, `0..2` for
`V1_1::Effect_1_1`, `0..20` for `V1_2::Effect`, `0..21` for `V1_3::Effect`. -/
def hidl_enum_range : EffectEnum → List Nat
  | .V1_0_Effect => List.range 2
  | .V1_1_Effect_1_1 => List.range 3
  | .V1_2_Effect => List.range 21
  | .V1_3_Effect => List.range 22

/-- One attempted file write: the path, the string, and whether it succeeded. -/
structure WriteRec where
  path : String
  content : String
  ok : Bool
  deriving DecidableEq, Repr

/-- The ordered log of write attempts. -/
abbrev WriteLog := List WriteRec

/-- Outcome of a write attempt, as a function of the attempts made so far, the
path and the content. -/
abbrev FileOracle := WriteLog → String → String → Bool

/-- Modelled from the spec: `android::base::WriteStringToFile` belongs to the
platform; file writes are modelled as an ordered log.  The attempt is appended
to the log with its outcome, and the outcome is returned. -/
def WriteStringToFile (io : FileOracle) (content path : String) (log : WriteLog) :
    Bool × WriteLog :=
  (io log path content, log ++ [⟨path, content, io log path content⟩])

def kLedVibDeviceDir : String := "/sys/class/leds/vibrator/"
def kLedVibDeviceActivateFile : String := kLedVibDeviceDir ++ "activate"
def kLedVibDeviceDurationFile : String := kLedVibDeviceDir ++ "duration"
def kLedVibDeviceStateFile : String := kLedVibDeviceDir ++ "state"
def kLedVibDeviceVmaxMvFile : String := kLedVibDeviceDir ++ "vmax_mv"

def QPNP_VIB_LDO_VMIN_MV : Nat := 1504
def QPNP_VIB_LDO_VMAX_MV : Nat := 3544
def MV_ADDITION_MAX : Nat := (QPNP_VIB_LDO_VMAX_MV - QPNP_VIB_LDO_VMIN_MV) % 2 ^ 32

/-- The session state of the service: the members `mAmplitude`,
`mExternalControl` and `mHasEffect` of `class Vibrator`. -/
structure Vibrator where
  mAmplitude : Nat
  mExternalControl : Bool
  mHasEffect : Bool
  deriving DecidableEq, Repr

namespace Vibrator

/-- The private `Vibrator::enable(bool enabled, uint32_t ms)`. -/
def enable (io : FileOracle) (self : Vibrator) (enabled : Bool) (ms : Nat) (log : WriteLog) :
    Status × Vibrator × WriteLog :=
  if self.mExternalControl then
    (Status.UNSUPPORTED_OPERATION, self, log)
  else
    let w1 := WriteStringToFile io (if enabled then "1" else "0") kLedVibDeviceStateFile log
    if !w1.1 then (Status.UNKNOWN_ERROR, self, w1.2)
    else
      let w2 := WriteStringToFile io (toString ms) kLedVibDeviceDurationFile w1.2
      if !w2.1 then (Status.UNKNOWN_ERROR, self, w2.2)
      else
        let w3 := WriteStringToFile io (if enabled then "1" else "0") kLedVibDeviceActivateFile w2.2
        if !w3.1 then (Status.UNKNOWN_ERROR, self, w3.2)
        else (Status.OK, self, w3.2)

/-- The public `Vibrator::on(uint32_t timeoutMs)` (`on` is a reserved word, hence
the trailing underscore). -/
def on_ (io : FileOracle) (self : Vibrator) (timeoutMs : Nat) (log : WriteLog) :
    Status × Vibrator × WriteLog :=
  enable io { self with mHasEffect := false } true timeoutMs log

/-- The public `Vibrator::off()`. -/
def off (io : FileOracle) (self : Vibrator) (log : WriteLog) : Status × Vibrator × WriteLog :=
  if self.mHasEffect then (Status.OK, self, log)
  else enable io self false 0 log

/-- The public `Vibrator::supportsAmplitudeControl()`. -/
def supportsAmplitudeControl (_self : Vibrator) : Bool := true

/-- The millivolt value computed by `Vibrator::setAmplitude`, in `uint32_t`
arithmetic: `mv_addition = amplitude * MV_ADDITION_MAX / 0xFF`,
`mv = QPNP_VIB_LDO_VMIN_MV + mv_addition`. -/
def amplitudeToMv (amplitude : Nat) : Nat :=
  let mv_addition := (amplitude * MV_ADDITION_MAX) % 2 ^ 32 / 0xFF
  (QPNP_VIB_LDO_VMIN_MV + mv_addition) % 2 ^ 32

/-- The public `Vibrator::setAmplitude(uint8_t amplitude)`. -/
def setAmplitude (io : FileOracle) (self : Vibrator) (amplitude : Nat) (log : WriteLog) :
    Status × Vibrator × WriteLog :=
  if amplitude < 0 then (Status.BAD_VALUE, self, log)
  else
    let mv := amplitudeToMv amplitude
    let w := WriteStringToFile io (toString mv) kLedVibDeviceVmaxMvFile log
    if !w.1 then (Status.UNKNOWN_ERROR, self, w.2)
    else (Status.OK, { self with mAmplitude := amplitude }, w.2)

/-- The public `Vibrator::supportsExternalControl()`. -/
def supportsExternalControl (_self : Vibrator) : Bool := true

/-- The public `Vibrator::setExternalControl(bool enabled)`. -/
def setExternalControl (self : Vibrator) (enabled : Bool) : Status × Vibrator :=
  (Status.OK, { self with mExternalControl := enabled })

/-- The private `Vibrator::effectToMs(Effect effect, Status* status)`: the
duration and the value of `*status` on return. -/
def effectToMs (effect : Effect) (status : Status) : Nat × Status :=
  if effect = Effect.CLICK then (10, status)
  else if effect = Effect.DOUBLE_CLICK then (15, status)
  else if effect = Effect.TICK ∨ effect = Effect.TEXTURE_TICK then (5, status)
  else if effect = Effect.THUD then (5, status)
  else if effect = Effect.POP then (5, status)
  else if effect = Effect.HEAVY_CLICK then (10, status)
  else if effect = Effect.RINGTONE_1 then (30000, status)
  else if effect = Effect.RINGTONE_2 then (30000, status)
  else if effect = Effect.RINGTONE_3 then (30000, status)
  else if effect = Effect.RINGTONE_4 then (30000, status)
  else if effect = Effect.RINGTONE_5 then (30000, status)
  else if effect = Effect.RINGTONE_6 then (30000, status)
  else if effect = Effect.RINGTONE_7 then (30000, status)
  else if effect = Effect.RINGTONE_8 then (30000, status)
  else if effect = Effect.RINGTONE_9 then (30000, status)
  else if effect = Effect.RINGTONE_10 then (30000, status)
  else if effect = Effect.RINGTONE_11 then (30000, status)
  else if effect = Effect.RINGTONE_12 then (30000, status)
  else if effect = Effect.RINGTONE_13 then (30000, status)
  else if effect = Effect.RINGTONE_14 then (30000, status)
  else if effect = Effect.RINGTONE_15 then (30000, status)
  else (0, Status.UNSUPPORTED_OPERATION)

/-- The private `Vibrator::strengthToAmplitude(EffectStrength strength, Status* status)`:
the amplitude and the value of `*status` on return. -/
def strengthToAmplitude (strength : EffectStrength) (status : Status) : Nat × Status :=
  if strength = EffectStrength.LIGHT then (63, status)
  else if strength = EffectStrength.MEDIUM then (159, status)
  else if strength = EffectStrength.STRONG then (255, status)
  else (0, Status.UNSUPPORTED_OPERATION)

/-- The private canonical `Vibrator::perform(Effect, EffectStrength, perform_cb)`.
The first component is the pair handed to the callback. -/
def perform (io : FileOracle) (self : Vibrator) (effect : Effect) (strength : EffectStrength)
    (log : WriteLog) : (Status × Nat) × Vibrator × WriteLog :=
  let self1 := { self with mHasEffect := true }
  let a := strengthToAmplitude strength Status.OK
  if a.2 ≠ Status.OK then ((a.2, 0), self1, log)
  else
    let r := setAmplitude io self1 a.1 log
    let m := effectToMs effect a.2
    if m.2 ≠ Status.OK then ((m.2, 0), r.2.1, r.2.2)
    else
      let e := enable io r.2.1 true m.1 r.2.2
      ((e.1, m.1), e.2.1, e.2.2)

/-- The private template `Vibrator::perform<T>(T effect, EffectStrength, perform_cb)`:
the range check against `hidl_enum_range<T>()`, then the canonical `perform` on
`static_cast<Effect>(effect)`. -/
def performT (T : EffectEnum) (io : FileOracle) (self : Vibrator) (effect : Nat)
    (strength : EffectStrength) (log : WriteLog) : (Status × Nat) × Vibrator × WriteLog :=
  let validRange := hidl_enum_range T
  if effect < validRange.headD 0 ∨ effect > validRange.getLastD 0 then
    ((Status.UNSUPPORTED_OPERATION, 0), self, log)
  else perform io self effect strength log

/-- The public `Vibrator::perform(V1_0::Effect, EffectStrength, perform_cb)`. -/
def perform_1_0 (io : FileOracle) (self : Vibrator) (effect : Nat) (strength : EffectStrength)
    (log : WriteLog) : (Status × Nat) × Vibrator × WriteLog :=
  performT .V1_0_Effect io self effect strength log

/-- The public `Vibrator::perform_1_1(V1_1::Effect_1_1, EffectStrength, perform_cb)`. -/
def perform_1_1 (io : FileOracle) (self : Vibrator) (effect : Nat) (strength : EffectStrength)
    (log : WriteLog) : (Status × Nat) × Vibrator × WriteLog :=
  performT .V1_1_Effect_1_1 io self effect strength log

/-- The public `Vibrator::perform_1_2(V1_2::Effect, EffectStrength, perform_cb)`. -/
def perform_1_2 (io : FileOracle) (self : Vibrator) (effect : Nat) (strength : EffectStrength)
    (log : WriteLog) : (Status × Nat) × Vibrator × WriteLog :=
  performT .V1_2_Effect io self effect strength log

/-- The public `Vibrator::perform_1_3(Effect, EffectStrength, perform_cb)`. -/
def perform_1_3 (io : FileOracle) (self : Vibrator) (effect : Nat) (strength : EffectStrength)
    (log : WriteLog) : (Status × Nat) × Vibrator × WriteLog :=
  performT .V1_3_Effect io self effect strength log

end Vibrator

end VibratorHal

namespace Props

/-- The system property store: the properties in creation order, each a name
with its value. -/
abbrev PropStore := List (String × String)

/-- The names present in the store, in creation order. -/
def keys (store : PropStore) : List String := store.map Prod.fst

/-- The value the store holds for a name (the first entry with that name). -/
def lookup : PropStore → String → Option String
  | [], _ => none
  | (k, v) :: rest, name => if k = name then some v else lookup rest name

/-- Modelled from the spec: `__system_property_find` belongs to the platform; the
store is a key/value map with find, update-in-place and add.  The result is the
position of the entry (the `prop_info*`), or `none` for `nullptr`. -/
def __system_property_find : PropStore → String → Option Nat
  | [], _ => none
  | (k, _) :: rest, name =>
    if k = name then some 0 else (__system_property_find rest name).map (· + 1)

/-- Modelled from the spec: `__system_property_update` belongs to the platform;
it replaces, in place, the value of the entry at position `pi`. -/
def __system_property_update : PropStore → Nat → String → PropStore
  | [], _, _ => []
  | (k, _) :: rest, 0, value => (k, value) :: rest
  | e :: rest, pi + 1, value => e :: __system_property_update rest pi value

/-- Modelled from the spec: `__system_property_add` belongs to the platform; it
creates a new entry. -/
def __system_property_add (store : PropStore) (name value : String) : PropStore :=
  store ++ [(name, value)]

/-- Modelled from the spec: `android::base::GetProperty` belongs to the platform;
it yields the value of the property, or `default_value` when the property does
not exist or is empty. -/
def GetProperty (store : PropStore) (key default_value : String) : String :=
  match lookup store key with
  | some v => if v = "" then default_value else v
  | none => default_value

end Props

namespace Init

open Props

/-- The function `property_override` of `init/init_onclite.cpp`. -/
def property_override (store : PropStore) (prop value : String) : PropStore :=
  match __system_property_find store prop with
  | some pi => __system_property_update store pi value
  | none => __system_property_add store prop value

/-- The array `RO_PROP_SOURCES` local to `load_props`. -/
def RO_PROP_SOURCES : List String := ["", "odm.", "system.", "vendor."]

/-- The function `load_props` of `init/init_onclite.cpp`. -/
def load_props (store : PropStore) (device model : String) : PropStore :=
  RO_PROP_SOURCES.foldl
    (fun st source =>
      let st1 := property_override st ("ro.product." ++ source ++ "name") device
      let st2 := property_override st1 ("ro.product." ++ source ++ "device") device
      property_override st2 ("ro.product." ++ source ++ "model") model)
    store

/-- The function `vendor_load_properties` of `init/init_onclite.cpp`. -/
def vendor_load_properties (store : PropStore) : PropStore :=
  let boot_cert := GetProperty store "ro.boot.product.cert" ""
  if boot_cert = "M1810F6LG" ∨ boot_cert = "M1810F6LH" ∨ boot_cert = "M1810F6LI" then
    load_props store "onclite" "Redmi 7"
  else
    load_props store "onc" "Redmi Y3"

end Init

namespace LibInit

open Props

def VARIANT_ONE : String := "Redmi 7"
def VARIANT_TWO : String := "Redmi Y3"

/-- The array `ro_props_sources` of `libinit/init_onclite.cpp`. -/
def ro_props_sources : List String :=
  ["", "odm.", "product.", "system.", "system_ext.", "vendor.", "vendor_dlkm."]

/-- The function `property_override` of `libinit/init_onclite.cpp`; the source
gives `add` the default `true`, which the callers here pass explicitly. -/
def property_override (store : PropStore) (name value : String) (add : Bool) : PropStore :=
  match __system_property_find store name with
  | some pi => __system_property_update store pi value
  | none => if add then __system_property_add store name value else store

/-- The function `set_model_props` of `libinit/init_onclite.cpp`. -/
def set_model_props (store : PropStore) (model : String) : PropStore :=
  ro_props_sources.foldl
    (fun st source => property_override st ("ro.product." ++ source ++ "model") model true)
    store

/-- The function `set_device_model` of `libinit/init_onclite.cpp`. -/
def set_device_model (store : PropStore) : PropStore :=
  let hwversion := GetProperty store "ro.boot.hwversion" ""
  if hwversion = "1.19.0" then set_model_props store VARIANT_TWO
  else set_model_props store VARIANT_ONE

/-- The function `vendor_load_properties` of `libinit/init_onclite.cpp`. -/
def vendor_load_properties (store : PropStore) : PropStore :=
  set_device_model store

end LibInit

/-! ## Vibrator HAL: auxiliary lemmas -/

namespace VibratorHal

open Vibrator

theorem effectToMs_known (e : Nat) (st : Status) (he : e ≤ 21) :
    (effectToMs e st).2 = st := by
  interval_cases e <;> rfl

theorem strengthToAmplitude_known (s : EffectStrength)
    (hs : s = EffectStrength.LIGHT ∨ s = EffectStrength.MEDIUM ∨ s = EffectStrength.STRONG) :
    (strengthToAmplitude s Status.OK).2 = Status.OK ∧ (strengthToAmplitude s Status.OK).1 ≤ 255 := by
  rcases hs with h | h | h <;> subst h <;> decide

theorem amplitudeToMv_eq (level : Nat) (h : level ≤ 255) :
    amplitudeToMv level = 1504 + 8 * level := by
  have h1 : (3544 - 1504) % 2 ^ 32 = 2040 := by norm_num
  have h2 : level * 2040 % 2 ^ 32 = level * 2040 := Nat.mod_eq_of_lt (by omega)
  have h3 : level * 2040 / 255 = 8 * level := by omega
  have h4 : (1504 + 8 * level) % 2 ^ 32 = 1504 + 8 * level := Nat.mod_eq_of_lt (by omega)
  simp only [amplitudeToMv, MV_ADDITION_MAX, QPNP_VIB_LDO_VMAX_MV, QPNP_VIB_LDO_VMIN_MV,
    h1, h2, h3, h4]

theorem vmax_ne_activate_files :
    kLedVibDeviceVmaxMvFile ≠ kLedVibDeviceStateFile ∧
    kLedVibDeviceVmaxMvFile ≠ kLedVibDeviceDurationFile ∧
    kLedVibDeviceVmaxMvFile ≠ kLedVibDeviceActivateFile := by
  decide

theorem setAmplitude_eq (io : FileOracle) (self : Vibrator) (amplitude : Nat) (log : WriteLog) :
    setAmplitude io self amplitude log =
      (if io log kLedVibDeviceVmaxMvFile (toString (amplitudeToMv amplitude)) then Status.OK
        else Status.UNKNOWN_ERROR,
       if io log kLedVibDeviceVmaxMvFile (toString (amplitudeToMv amplitude)) then
         { self with mAmplitude := amplitude } else self,
       log ++ [⟨kLedVibDeviceVmaxMvFile, toString (amplitudeToMv amplitude),
         io log kLedVibDeviceVmaxMvFile (toString (amplitudeToMv amplitude))⟩]) := by
  simp only [setAmplitude, WriteStringToFile, Nat.not_lt_zero, if_false]
  cases io log kLedVibDeviceVmaxMvFile (toString (amplitudeToMv amplitude)) <;> simp

theorem enable_external (io : FileOracle) (self : Vibrator) (enabled : Bool) (ms : Nat)
    (log : WriteLog) (h : self.mExternalControl = true) :
    enable io self enabled ms log = (Status.UNSUPPORTED_OPERATION, self, log) := by
  simp [enable, h]

theorem enable_all_ok (io : FileOracle) (self : Vibrator) (enabled : Bool) (ms : Nat)
    (log : WriteLog) (h : self.mExternalControl = false) (hio : ∀ l p c, io l p c = true) :
    enable io self enabled ms log =
      (Status.OK, self,
        log ++ [⟨kLedVibDeviceStateFile, if enabled then "1" else "0", true⟩,
                ⟨kLedVibDeviceDurationFile, toString ms, true⟩,
                ⟨kLedVibDeviceActivateFile, if enabled then "1" else "0", true⟩]) := by
  simp [enable, h, hio, WriteStringToFile]

end VibratorHal

/-! ## Vibrator HAL: the claims -/

namespace VibratorHal

open Vibrator

/-- C1: for each of the 22 known effects and each strength LIGHT, MEDIUM, STRONG, when
external control is inactive and every write succeeds, the canonical `perform` reports
`(OK, effectToMs e)`, records the amplitude and the named-effect flag, and appends exactly
four writes to the log, in this order: `vmax_mv` with the decimal string of
`1504 + strengthToAmplitude s * 2040 / 255`, `state` with `"1"`, `duration` with the
decimal string of `effectToMs e`, `activate` with `"1"`. -/
theorem perform_known_effect_four_writes (io : FileOracle) (self : Vibrator) (e : Nat)
    (s : EffectStrength) (log : WriteLog) (he : e ≤ 21)
    (hs : s = EffectStrength.LIGHT ∨ s = EffectStrength.MEDIUM ∨ s = EffectStrength.STRONG)
    (hext : self.mExternalControl = false) (hio : ∀ l p c, io l p c = true) :
    perform io self e s log =
      ((Status.OK, (effectToMs e Status.OK).1),
       { mAmplitude := (strengthToAmplitude s Status.OK).1,
         mExternalControl := false, mHasEffect := true },
       log ++ [⟨kLedVibDeviceVmaxMvFile,
                 toString (1504 + (strengthToAmplitude s Status.OK).1 * 2040 / 255), true⟩,
               ⟨kLedVibDeviceStateFile, "1", true⟩,
               ⟨kLedVibDeviceDurationFile, toString (effectToMs e Status.OK).1, true⟩,
               ⟨kLedVibDeviceActivateFile, "1", true⟩]) := by
  obtain ⟨hs2, hs1⟩ := strengthToAmplitude_known s hs
  have hm := effectToMs_known e Status.OK he
  have hmv : amplitudeToMv (strengthToAmplitude s Status.OK).1 =
      1504 + (strengthToAmplitude s Status.OK).1 * 2040 / 255 := by
    rw [amplitudeToMv_eq _ hs1]; omega
  simp only [perform, hs2, hm, setAmplitude_eq, hio, hmv, ne_eq, not_true_eq_false, if_false,
    if_true]
  rw [enable_all_ok io _ true _ _ (by simpa using hext) hio]
  simp [hext]

/-- Witness of C1: `perform(CLICK, MEDIUM)` reports `(OK, 10)` and writes `"2776"`, `"1"`,
`"10"`, `"1"` to `vmax_mv`, `state`, `duration`, `activate`. -/
theorem perform_known_effect_four_writes_witness :
    perform (fun _ _ _ => true) ⟨0, false, false⟩ Effect.CLICK EffectStrength.MEDIUM [] =
      ((Status.OK, 10), ⟨159, false, true⟩,
       [⟨"/sys/class/leds/vibrator/vmax_mv", "2776", true⟩,
        ⟨"/sys/class/leds/vibrator/state", "1", true⟩,
        ⟨"/sys/class/leds/vibrator/duration", "10", true⟩,
        ⟨"/sys/class/leds/vibrator/activate", "1", true⟩]) :=
  (perform_known_effect_four_writes (fun _ _ _ => true) ⟨0, false, false⟩ Effect.CLICK
    EffectStrength.MEDIUM [] (by decide) (Or.inr (Or.inl rfl)) rfl (fun _ _ _ => rfl)).trans
    (by decide)

/-- C2: for every level in `0..255`, `setAmplitude` attempts exactly one write, to `vmax_mv`,
of the decimal string of the millivolt value; that value is `1504 + level * 2040 / 255`, the
product does not overflow 32 bits, and it equals `1504 + 8 * level`; it is `1504` at level 0
and `3544` at level 255, always lies in `[1504, 3544]`, and is strictly monotone. -/
theorem setAmplitude_millivolts (level : Nat) (hl : level ≤ 255) :
    (∀ (io : FileOracle) (self : Vibrator) (log : WriteLog),
      (setAmplitude io self level log).2.2 =
        log ++ [⟨kLedVibDeviceVmaxMvFile, toString (amplitudeToMv level),
          io log kLedVibDeviceVmaxMvFile (toString (amplitudeToMv level))⟩]) ∧
    level * MV_ADDITION_MAX < 2 ^ 32 ∧
    amplitudeToMv level = 1504 + level * 2040 / 255 ∧
    amplitudeToMv level = 1504 + 8 * level ∧
    amplitudeToMv 0 = 1504 ∧ amplitudeToMv 255 = 3544 ∧
    1504 ≤ amplitudeToMv level ∧ amplitudeToMv level ≤ 3544 ∧
    (∀ other : Nat, other ≤ 255 → level < other → amplitudeToMv level < amplitudeToMv other) := by
  have h := amplitudeToMv_eq level hl
  refine ⟨fun io self log => by rw [setAmplitude_eq], ?_, ?_, h, by decide, by decide,
    ?_, ?_, ?_⟩
  · have : MV_ADDITION_MAX = 2040 := by decide
    rw [this]; omega
  · rw [h]; omega
  · omega
  · omega
  · intro other ho hlt
    rw [h, amplitudeToMv_eq other ho]; omega

/-- Witness of C2: at level 159 the value written is 2776. -/
theorem setAmplitude_millivolts_witness :
    (159 : Nat) ≤ 255 ∧ amplitudeToMv 159 = 1504 + 8 * 159 :=
  ⟨by decide, (setAmplitude_millivolts 159 (by decide)).2.2.2.1⟩

end VibratorHal

namespace VibratorHal

open Vibrator

/-- C3: with external control inactive, if the k-th write (k = 1, 2, 3) of the sequence
`state`, `duration`, `activate` is the first that fails, `enable` returns `UNKNOWN_ERROR`,
the log gains exactly the first k attempts (the k-1 successful ones followed by the failed
one, nothing undone, nothing after it), and the session state is unchanged. -/
theorem enable_first_failure (io : FileOracle) (self : Vibrator) (enabled : Bool) (ms : Nat)
    (log : WriteLog) (hext : self.mExternalControl = false) :
    (io log kLedVibDeviceStateFile (if enabled then "1" else "0") = false →
      enable io self enabled ms log =
        (Status.UNKNOWN_ERROR, self,
          log ++ [⟨kLedVibDeviceStateFile, if enabled then "1" else "0", false⟩])) ∧
    (io log kLedVibDeviceStateFile (if enabled then "1" else "0") = true →
      io (log ++ [⟨kLedVibDeviceStateFile, if enabled then "1" else "0", true⟩])
        kLedVibDeviceDurationFile (toString ms) = false →
      enable io self enabled ms log =
        (Status.UNKNOWN_ERROR, self,
          log ++ [⟨kLedVibDeviceStateFile, if enabled then "1" else "0", true⟩,
                  ⟨kLedVibDeviceDurationFile, toString ms, false⟩])) ∧
    (io log kLedVibDeviceStateFile (if enabled then "1" else "0") = true →
      io (log ++ [⟨kLedVibDeviceStateFile, if enabled then "1" else "0", true⟩])
        kLedVibDeviceDurationFile (toString ms) = true →
      io (log ++ [⟨kLedVibDeviceStateFile, if enabled then "1" else "0", true⟩,
                  ⟨kLedVibDeviceDurationFile, toString ms, true⟩])
        kLedVibDeviceActivateFile (if enabled then "1" else "0") = false →
      enable io self enabled ms log =
        (Status.UNKNOWN_ERROR, self,
          log ++ [⟨kLedVibDeviceStateFile, if enabled then "1" else "0", true⟩,
                  ⟨kLedVibDeviceDurationFile, toString ms, true⟩,
                  ⟨kLedVibDeviceActivateFile, if enabled then "1" else "0", false⟩])) := by
  refine ⟨fun h1 => ?_, fun h1 h2 => ?_, fun h1 h2 h3 => ?_⟩
  · simp [enable, hext, WriteStringToFile, h1]
  · simp [enable, hext, WriteStringToFile, h1, h2]
  · simp only [enable, hext, WriteStringToFile, h1, h2, List.append_assoc, List.singleton_append,
      Bool.not_true, Bool.false_eq_true, if_false, h3, Bool.not_false, if_true,
      List.cons_append, List.nil_append]

/-- Witness of C3: `enable(true, 10)` where the `duration` write fails makes two attempts and
returns `UNKNOWN_ERROR`. -/
theorem enable_first_failure_witness :
    enable (fun _ p _ => p != kLedVibDeviceDurationFile) ⟨7, false, false⟩ true 10 [] =
      (Status.UNKNOWN_ERROR, ⟨7, false, false⟩,
        [⟨"/sys/class/leds/vibrator/state", "1", true⟩,
         ⟨"/sys/class/leds/vibrator/duration", "10", false⟩]) :=
  ((enable_first_failure (fun _ p _ => p != kLedVibDeviceDurationFile) ⟨7, false, false⟩ true 10 []
    rfl).2.1 (by decide) (by decide)).trans (by decide)

/-- Counterexample to C4 as stated: with external control active, `perform(CLICK, MEDIUM)`
does return `UNSUPPORTED_OPERATION`, but the log is not unchanged: the `vmax_mv` write of the
`setAmplitude` step has been made. -/
theorem perform_under_external_control_touches_vmax :
    (perform (fun _ _ _ => true) ⟨0, true, false⟩ Effect.CLICK EffectStrength.MEDIUM []).1.1 =
      Status.UNSUPPORTED_OPERATION ∧
    (perform (fun _ _ _ => true) ⟨0, true, false⟩ Effect.CLICK EffectStrength.MEDIUM []).2.2 =
      [⟨"/sys/class/leds/vibrator/vmax_mv", "2776", true⟩] ∧
    (perform (fun _ _ _ => true) ⟨0, true, false⟩ Effect.CLICK EffectStrength.MEDIUM []).2.2 ≠
      [] := by
  decide

/-- C4, amended: when the external-control flag is true, `on(ms)` returns
`UNSUPPORTED_OPERATION` and leaves the log unchanged; the canonical `perform` on a known
effect and a strength LIGHT, MEDIUM or STRONG reports `UNSUPPORTED_OPERATION`, makes no write
to `state`, `duration` or `activate`, and makes exactly one write attempt, the `vmax_mv` write
of its `setAmplitude` step. -/
theorem external_control_blocks_activate (io : FileOracle) (self : Vibrator) (log : WriteLog)
    (hext : self.mExternalControl = true) :
    (∀ ms : Nat,
      on_ io self ms log = (Status.UNSUPPORTED_OPERATION, { self with mHasEffect := false }, log)) ∧
    (∀ (e : Nat) (s : EffectStrength), e ≤ 21 →
      (s = EffectStrength.LIGHT ∨ s = EffectStrength.MEDIUM ∨ s = EffectStrength.STRONG) →
      (perform io self e s log).1 = (Status.UNSUPPORTED_OPERATION, (effectToMs e Status.OK).1) ∧
      (perform io self e s log).2.2 =
        log ++ [⟨kLedVibDeviceVmaxMvFile,
          toString (amplitudeToMv (strengthToAmplitude s Status.OK).1),
          io log kLedVibDeviceVmaxMvFile
            (toString (amplitudeToMv (strengthToAmplitude s Status.OK).1))⟩] ∧
      (∀ w ∈ ((perform io self e s log).2.2).drop log.length,
        w.path ≠ kLedVibDeviceStateFile ∧ w.path ≠ kLedVibDeviceDurationFile ∧
        w.path ≠ kLedVibDeviceActivateFile)) := by
  refine ⟨fun ms => ?_, fun e s he hs => ?_⟩
  · simp [on_, enable, hext]
  · obtain ⟨hs2, -⟩ := strengthToAmplitude_known s hs
    have hm := effectToMs_known e Status.OK he
    have hp : perform io self e s log =
        ((Status.UNSUPPORTED_OPERATION, (effectToMs e Status.OK).1),
          (setAmplitude io { self with mHasEffect := true }
            (strengthToAmplitude s Status.OK).1 log).2.1,
          log ++ [⟨kLedVibDeviceVmaxMvFile,
            toString (amplitudeToMv (strengthToAmplitude s Status.OK).1),
            io log kLedVibDeviceVmaxMvFile
              (toString (amplitudeToMv (strengthToAmplitude s Status.OK).1))⟩]) := by
      simp only [perform, hs2, hm, ne_eq, not_true_eq_false, if_false]
      rw [enable_external]
      · simp [setAmplitude_eq]
      · rw [setAmplitude_eq]
        split <;> simp [hext]
    rw [hp]
    refine ⟨rfl, rfl, ?_⟩
    intro w hw
    simp only [List.drop_left, List.mem_singleton] at hw
    subst hw
    exact vmax_ne_activate_files

/-- Witness of C4 (amended): with external control active, `perform(CLICK, MEDIUM)` reports
`(UNSUPPORTED_OPERATION, 10)`. -/
theorem external_control_blocks_activate_witness :
    (perform (fun _ _ _ => true) ⟨0, true, false⟩ Effect.CLICK EffectStrength.MEDIUM []).1 =
      (Status.UNSUPPORTED_OPERATION, 10) :=
  ((external_control_blocks_activate (fun _ _ _ => true) ⟨0, true, false⟩ [] rfl).2
    Effect.CLICK EffectStrength.MEDIUM (by decide) (Or.inr (Or.inl rfl))).1

end VibratorHal

namespace VibratorHal

open Vibrator

/-- C6: whatever the initial session state, effect, strength and write outcomes, `off()`
right after the canonical `perform` returns `OK`, leaves the log and the session state as
`perform` left them; whereas `off()` right after `on(ms)` with external control inactive is
`enable(false, 0)`, which, when its writes succeed, appends `state` `"0"`, `duration` `"0"`,
`activate` `"0"` in that order. -/
theorem off_after_perform_and_after_on (io io2 : FileOracle) (self : Vibrator)
    (log : WriteLog) :
    (∀ (e : Nat) (s : EffectStrength),
      off io2 (perform io self e s log).2.1 (perform io self e s log).2.2 =
        (Status.OK, (perform io self e s log).2.1, (perform io self e s log).2.2)) ∧
    (∀ ms : Nat, self.mExternalControl = false →
      off io2 (on_ io self ms log).2.1 (on_ io self ms log).2.2 =
        enable io2 (on_ io self ms log).2.1 false 0 (on_ io self ms log).2.2 ∧
      ((∀ l p c, io2 l p c = true) →
        off io2 (on_ io self ms log).2.1 (on_ io self ms log).2.2 =
          (Status.OK, (on_ io self ms log).2.1,
            (on_ io self ms log).2.2 ++
              [⟨kLedVibDeviceStateFile, "0", true⟩,
               ⟨kLedVibDeviceDurationFile, "0", true⟩,
               ⟨kLedVibDeviceActivateFile, "0", true⟩]))) := by
  have hon : ∀ ms : Nat, (on_ io self ms log).2.1 = { self with mHasEffect := false } := by
    intro ms
    simp only [on_, enable]
    repeat' split
    all_goals rfl
  refine ⟨fun e s => ?_, fun ms hext => ?_⟩
  · have hflag : (perform io self e s log).2.1.mHasEffect = true := by
      simp only [perform, setAmplitude, enable, WriteStringToFile]
      repeat' split
      all_goals rfl
    simp [off, hflag]
  · have hoff : off io2 (on_ io self ms log).2.1 (on_ io self ms log).2.2 =
        enable io2 (on_ io self ms log).2.1 false 0 (on_ io self ms log).2.2 := by
      simp [off, hon]
    refine ⟨hoff, fun hio => ?_⟩
    rw [hoff, enable_all_ok io2 _ false 0 _ (by rw [hon]; exact hext) hio]
    simp
    rfl

/-- Witness of C6: `on(20)` then `off()` with all writes succeeding. -/
theorem off_after_perform_and_after_on_witness :
    off (fun _ _ _ => true) (on_ (fun _ _ _ => true) ⟨0, false, true⟩ 20 []).2.1
        (on_ (fun _ _ _ => true) ⟨0, false, true⟩ 20 []).2.2 =
      (Status.OK, ⟨0, false, false⟩,
        [⟨"/sys/class/leds/vibrator/state", "1", true⟩,
         ⟨"/sys/class/leds/vibrator/duration", "20", true⟩,
         ⟨"/sys/class/leds/vibrator/activate", "1", true⟩,
         ⟨"/sys/class/leds/vibrator/state", "0", true⟩,
         ⟨"/sys/class/leds/vibrator/duration", "0", true⟩,
         ⟨"/sys/class/leds/vibrator/activate", "0", true⟩]) :=
  ((((off_after_perform_and_after_on (fun _ _ _ => true) (fun _ _ _ => true) ⟨0, false, true⟩
    []).2 20 rfl).2 (fun _ _ _ => rfl))).trans (by decide)

end VibratorHal

namespace VibratorHal

open Vibrator

/-- C7: each versioned entry point (`perform` over `V1_0::Effect`, range `0..1`;
`perform_1_1`, range `0..2`; `perform_1_2`, range `0..20`; `perform_1_3`, range `0..21`)
reports `(UNSUPPORTED_OPERATION, 0)` with the log and the whole session state unchanged when
the numeric effect value is below the first or above the last value of its enumeration, and
otherwise is exactly the canonical `perform` on the same numeric value. -/
theorem versioned_perform_range_check (io : FileOracle) (self : Vibrator) (effect : Nat)
    (strength : EffectStrength) (log : WriteLog) :
    ((effect < 0 ∨ 1 < effect →
        perform_1_0 io self effect strength log =
          ((Status.UNSUPPORTED_OPERATION, 0), self, log)) ∧
      (¬ (effect < 0 ∨ 1 < effect) →
        perform_1_0 io self effect strength log = perform io self effect strength log)) ∧
    ((effect < 0 ∨ 2 < effect →
        perform_1_1 io self effect strength log =
          ((Status.UNSUPPORTED_OPERATION, 0), self, log)) ∧
      (¬ (effect < 0 ∨ 2 < effect) →
        perform_1_1 io self effect strength log = perform io self effect strength log)) ∧
    ((effect < 0 ∨ 20 < effect →
        perform_1_2 io self effect strength log =
          ((Status.UNSUPPORTED_OPERATION, 0), self, log)) ∧
      (¬ (effect < 0 ∨ 20 < effect) →
        perform_1_2 io self effect strength log = perform io self effect strength log)) ∧
    ((effect < 0 ∨ 21 < effect →
        perform_1_3 io self effect strength log =
          ((Status.UNSUPPORTED_OPERATION, 0), self, log)) ∧
      (¬ (effect < 0 ∨ 21 < effect) →
        perform_1_3 io self effect strength log = perform io self effect strength log)) := by
  have h0 : ∀ T, (hidl_enum_range T).headD 0 = 0 := by intro T; cases T <;> decide
  have l0 : (hidl_enum_range EffectEnum.V1_0_Effect).getLastD 0 = 1 := by decide
  have l1 : (hidl_enum_range EffectEnum.V1_1_Effect_1_1).getLastD 0 = 2 := by decide
  have l2 : (hidl_enum_range EffectEnum.V1_2_Effect).getLastD 0 = 20 := by decide
  have l3 : (hidl_enum_range EffectEnum.V1_3_Effect).getLastD 0 = 21 := by decide
  simp only [perform_1_0, perform_1_1, perform_1_2, perform_1_3, performT, h0, l0, l1, l2, l3,
    gt_iff_lt]
  refine ⟨⟨fun h => if_pos h, fun h => if_neg h⟩, ⟨fun h => if_pos h, fun h => if_neg h⟩,
    ⟨fun h => if_pos h, fun h => if_neg h⟩, ⟨fun h => if_pos h, fun h => if_neg h⟩⟩

/-- Witness of C7: `perform` over `V1_0::Effect` rejects the value 2 (TICK) untouched, while
`perform_1_1` passes it to the canonical `perform`. -/
theorem versioned_perform_range_check_witness :
    perform_1_0 (fun _ _ _ => true) ⟨0, false, false⟩ 2 EffectStrength.LIGHT [] =
      ((Status.UNSUPPORTED_OPERATION, 0), ⟨0, false, false⟩, []) ∧
    perform_1_1 (fun _ _ _ => true) ⟨0, false, false⟩ 2 EffectStrength.LIGHT [] =
      perform (fun _ _ _ => true) ⟨0, false, false⟩ 2 EffectStrength.LIGHT [] :=
  ⟨(versioned_perform_range_check (fun _ _ _ => true) ⟨0, false, false⟩ 2
      EffectStrength.LIGHT []).1.1 (Or.inr (by decide)),
   (versioned_perform_range_check (fun _ _ _ => true) ⟨0, false, false⟩ 2
      EffectStrength.LIGHT []).2.1.2 (by decide)⟩

/-- C8, the code at the failing input: in `perform(CLICK, MEDIUM)` with external control
inactive, when the `vmax_mv` write fails and the three Activate writes succeed, a write
attempted during the operation has failed and yet the reported status is `OK` (with duration
10), not `UNKNOWN_ERROR`; the recorded amplitude is left unchanged. -/
theorem perform_ignores_vmax_write_failure :
    perform (fun _ p _ => p != kLedVibDeviceVmaxMvFile) ⟨0, false, false⟩ Effect.CLICK
        EffectStrength.MEDIUM [] =
      ((Status.OK, 10), ⟨0, false, true⟩,
        [⟨"/sys/class/leds/vibrator/vmax_mv", "2776", false⟩,
         ⟨"/sys/class/leds/vibrator/state", "1", true⟩,
         ⟨"/sys/class/leds/vibrator/duration", "10", true⟩,
         ⟨"/sys/class/leds/vibrator/activate", "1", true⟩]) ∧
    (perform (fun _ p _ => p != kLedVibDeviceVmaxMvFile) ⟨0, false, false⟩ Effect.CLICK
        EffectStrength.MEDIUM []).1.1 ≠ Status.UNKNOWN_ERROR := by
  decide

/-- The part of C8 that the code satisfies: in `on`, `off` and `setAmplitude`, if some write
attempted during the operation fails, the status returned is `UNKNOWN_ERROR`; and
`setAmplitude` leaves the recorded amplitude unchanged when its write fails and records the
new level when it succeeds. -/
theorem write_failure_in_on_off_setAmplitude (io : FileOracle) (self : Vibrator)
    (log : WriteLog) :
    (∀ ms : Nat, (∃ w ∈ ((on_ io self ms log).2.2).drop log.length, w.ok = false) →
      (on_ io self ms log).1 = Status.UNKNOWN_ERROR) ∧
    ((∃ w ∈ ((off io self log).2.2).drop log.length, w.ok = false) →
      (off io self log).1 = Status.UNKNOWN_ERROR) ∧
    (∀ level : Nat,
      ((∃ w ∈ ((setAmplitude io self level log).2.2).drop log.length, w.ok = false) →
        (setAmplitude io self level log).1 = Status.UNKNOWN_ERROR) ∧
      ((setAmplitude io self level log).1 = Status.UNKNOWN_ERROR →
        (setAmplitude io self level log).2.1 = self) ∧
      ((setAmplitude io self level log).1 = Status.OK →
        (setAmplitude io self level log).2.1 = { self with mAmplitude := level })) := by
  have hen : ∀ (v : Vibrator) (en : Bool) (ms : Nat),
      (∃ w ∈ ((enable io v en ms log).2.2).drop log.length, w.ok = false) →
      (enable io v en ms log).1 = Status.UNKNOWN_ERROR := by
    intro v en ms
    simp only [enable, WriteStringToFile]
    repeat' split
    all_goals simp_all
  refine ⟨fun ms => hen _ true ms, ?_, fun level => ?_⟩
  · simp only [off]
    split
    · simp
    · exact hen self false 0
  · rw [setAmplitude_eq]
    cases io log kLedVibDeviceVmaxMvFile (toString (amplitudeToMv level)) <;> simp

end VibratorHal

/-! ## Property overrides: auxiliary lemmas -/

namespace Props

theorem override_nil (k v : String) : Init.property_override [] k v = [(k, v)] := rfl

theorem override_cons (k' v' : String) (rest : PropStore) (k v : String) :
    Init.property_override ((k', v') :: rest) k v =
      if k' = k then (k', v) :: rest else (k', v') :: Init.property_override rest k v := by
  by_cases h : k' = k
  · simp [Init.property_override, __system_property_find, __system_property_update, h]
  · simp only [Init.property_override, __system_property_find, h, if_false]
    cases hf : __system_property_find rest k with
    | none => simp [__system_property_add]
    | some i => simp [__system_property_update]

theorem libinit_override_eq (s : PropStore) (k v : String) :
    LibInit.property_override s k v true = Init.property_override s k v := by
  simp [LibInit.property_override, Init.property_override]

theorem lookup_override (s : PropStore) (k v name : String) :
    lookup (Init.property_override s k v) name =
      if name = k then some v else lookup s name := by
  induction s with
  | nil =>
    simp only [override_nil, lookup]
    by_cases h : k = name
    · simp [h]
    · have h' : ¬ name = k := fun e => h e.symm
      simp [h, h']
  | cons e rest ih =>
    obtain ⟨k', v'⟩ := e
    rw [override_cons]
    by_cases h : k' = k
    · subst h
      by_cases h2 : k' = name
      · simp [lookup, h2]
      · have h2' : ¬ name = k' := fun e => h2 e.symm
        simp [lookup, h2, h2']
    · simp only [h, if_false, lookup, ih]
      by_cases h2 : k' = name
      · subst h2
        simp [h]
      · simp [h2]

theorem keys_override (s : PropStore) (k v : String) :
    keys (Init.property_override s k v) = if k ∈ keys s then keys s else keys s ++ [k] := by
  induction s with
  | nil => simp [override_nil, keys]
  | cons e rest ih =>
    obtain ⟨k', v'⟩ := e
    rw [override_cons]
    by_cases h : k' = k
    · subst h
      simp [keys]
    · have h' : ¬ k = k' := fun e => h e.symm
      simp only [keys] at ih
      simp only [h, if_false, keys, List.map_cons, ih, List.mem_cons, h', false_or]
      split <;> simp

theorem override_idem (s : PropStore) (k v : String) :
    Init.property_override (Init.property_override s k v) k v = Init.property_override s k v := by
  induction s with
  | nil => simp [override_nil, override_cons]
  | cons e rest ih =>
    obtain ⟨k', v'⟩ := e
    by_cases h : k' = k
    · simp [override_cons, h]
    · simp [override_cons, h, ih]

theorem mem_keys_override (s : PropStore) (k v : String) :
    k ∈ keys (Init.property_override s k v) := by
  rw [keys_override]
  split
  · assumption
  · simp

theorem nodup_keys_override (s : PropStore) (k v : String) (h : (keys s).Nodup) :
    (keys (Init.property_override s k v)).Nodup := by
  rw [keys_override]
  split
  · exact h
  · rename_i hk
    exact List.Nodup.append h (List.nodup_singleton k) (by simpa using hk)

end Props

/-! ## Property overrides: the claims -/

namespace Props

theorem getProperty_empty_default (s : PropStore) (k : String) :
    GetProperty s k "" = (lookup s k).getD "" := by
  unfold GetProperty
  cases lookup s k with
  | none => rfl
  | some v =>
    by_cases h : v = ""
    · simp [h]
    · simp [h]

theorem lookup_load_props (s : PropStore) (device model : String) :
    (∀ p ∈ ["", "odm.", "system.", "vendor."],
      lookup (Init.load_props s device model) ("ro.product." ++ p ++ "name") = some device ∧
      lookup (Init.load_props s device model) ("ro.product." ++ p ++ "device") = some device ∧
      lookup (Init.load_props s device model) ("ro.product." ++ p ++ "model") = some model) ∧
    (∀ k : String,
      (∀ p ∈ ["", "odm.", "system.", "vendor."],
        k ≠ "ro.product." ++ p ++ "name" ∧ k ≠ "ro.product." ++ p ++ "device" ∧
        k ≠ "ro.product." ++ p ++ "model") →
      lookup (Init.load_props s device model) k = lookup s k) := by
  refine ⟨?_, ?_⟩
  · intro p hp
    simp only [List.mem_cons, List.mem_singleton, List.not_mem_nil, or_false] at hp
    rcases hp with rfl | rfl | rfl | rfl <;>
      simp [Init.load_props, Init.RO_PROP_SOURCES, lookup_override]
  · intro k hk
    have h1 := hk "" (by simp)
    have h2 := hk "odm." (by simp)
    have h3 := hk "system." (by simp)
    have h4 := hk "vendor." (by simp)
    simp only [Init.load_props, Init.RO_PROP_SOURCES, List.foldl, lookup_override,
      h1.1, h1.2.1, h1.2.2, h2.1, h2.2.1, h2.2.2, h3.1, h3.2.1, h3.2.2, h4.1, h4.2.1, h4.2.2,
      if_false]

theorem lookup_set_model_props (s : PropStore) (model : String) :
    (∀ p ∈ ["", "odm.", "product.", "system.", "system_ext.", "vendor.", "vendor_dlkm."],
      lookup (LibInit.set_model_props s model) ("ro.product." ++ p ++ "model") = some model) ∧
    (∀ k : String,
      (∀ p ∈ ["", "odm.", "product.", "system.", "system_ext.", "vendor.", "vendor_dlkm."],
        k ≠ "ro.product." ++ p ++ "model") →
      lookup (LibInit.set_model_props s model) k = lookup s k) := by
  refine ⟨?_, ?_⟩
  · intro p hp
    simp only [List.mem_cons, List.mem_singleton, List.not_mem_nil, or_false] at hp
    rcases hp with rfl | rfl | rfl | rfl | rfl | rfl | rfl <;>
      simp [LibInit.set_model_props, LibInit.ro_props_sources, lookup_override,
        libinit_override_eq]
  · intro k hk
    have h1 := hk "" (by simp)
    have h2 := hk "odm." (by simp)
    have h3 := hk "product." (by simp)
    have h4 := hk "system." (by simp)
    have h5 := hk "system_ext." (by simp)
    have h6 := hk "vendor." (by simp)
    have h7 := hk "vendor_dlkm." (by simp)
    simp only [LibInit.set_model_props, LibInit.ro_props_sources, List.foldl, lookup_override,
      libinit_override_eq, h1, h2, h3, h4, h5, h6, h7, if_false]

/-- C9: in `init`, whatever the store and the value `cert` of `ro.boot.product.cert` (the
empty string when the property is absent), the resolved pair is `("onclite", "Redmi 7")`
when `cert` is `"M1810F6LG"`, `"M1810F6LH"` or `"M1810F6LI"` and `("onc", "Redmi Y3")`
otherwise; after `vendor_load_properties`, for each prefix `""`, `"odm."`, `"system."`,
`"vendor."`, `ro.product.<prefix>name` and `ro.product.<prefix>device` hold the device and
`ro.product.<prefix>model` the model, and every other key is unchanged.  In `libinit`, with
`hw` the value of `ro.boot.hwversion`, the model is `"Redmi Y3"` when `hw` is exactly
`"1.19.0"` and `"Redmi 7"` otherwise; afterwards `ro.product.<prefix>model` holds it for each
of the 7 prefixes, and every other key is unchanged. -/
theorem variant_resolution (s : PropStore) (cert hw : String)
    (hcert : (lookup s "ro.boot.product.cert").getD "" = cert)
    (hhw : (lookup s "ro.boot.hwversion").getD "" = hw) :
    (∀ p ∈ ["", "odm.", "system.", "vendor."],
      lookup (Init.vendor_load_properties s) ("ro.product." ++ p ++ "name") =
        some (if cert = "M1810F6LG" ∨ cert = "M1810F6LH" ∨ cert = "M1810F6LI"
          then "onclite" else "onc") ∧
      lookup (Init.vendor_load_properties s) ("ro.product." ++ p ++ "device") =
        some (if cert = "M1810F6LG" ∨ cert = "M1810F6LH" ∨ cert = "M1810F6LI"
          then "onclite" else "onc") ∧
      lookup (Init.vendor_load_properties s) ("ro.product." ++ p ++ "model") =
        some (if cert = "M1810F6LG" ∨ cert = "M1810F6LH" ∨ cert = "M1810F6LI"
          then "Redmi 7" else "Redmi Y3")) ∧
    (∀ k : String,
      (∀ p ∈ ["", "odm.", "system.", "vendor."],
        k ≠ "ro.product." ++ p ++ "name" ∧ k ≠ "ro.product." ++ p ++ "device" ∧
        k ≠ "ro.product." ++ p ++ "model") →
      lookup (Init.vendor_load_properties s) k = lookup s k) ∧
    (∀ p ∈ ["", "odm.", "product.", "system.", "system_ext.", "vendor.", "vendor_dlkm."],
      lookup (LibInit.vendor_load_properties s) ("ro.product." ++ p ++ "model") =
        some (if hw = "1.19.0" then "Redmi Y3" else "Redmi 7")) ∧
    (∀ k : String,
      (∀ p ∈ ["", "odm.", "product.", "system.", "system_ext.", "vendor.", "vendor_dlkm."],
        k ≠ "ro.product." ++ p ++ "model") →
      lookup (LibInit.vendor_load_properties s) k = lookup s k) := by
  have hi : Init.vendor_load_properties s =
      Init.load_props s
        (if cert = "M1810F6LG" ∨ cert = "M1810F6LH" ∨ cert = "M1810F6LI"
          then "onclite" else "onc")
        (if cert = "M1810F6LG" ∨ cert = "M1810F6LH" ∨ cert = "M1810F6LI"
          then "Redmi 7" else "Redmi Y3") := by
    simp only [Init.vendor_load_properties, getProperty_empty_default, hcert]
    split <;> rfl
  have hl : LibInit.vendor_load_properties s =
      LibInit.set_model_props s (if hw = "1.19.0" then "Redmi Y3" else "Redmi 7") := by
    simp only [LibInit.vendor_load_properties, LibInit.set_device_model,
      getProperty_empty_default, hhw, LibInit.VARIANT_ONE, LibInit.VARIANT_TWO]
    split <;> rfl
  rw [hi, hl]
  exact ⟨(lookup_load_props s _ _).1, (lookup_load_props s _ _).2,
    (lookup_set_model_props s _).1, (lookup_set_model_props s _).2⟩

/-- Witness of C9: a store whose certificate is `"M1810F6LH"` and whose hardware version is
`"1.19.0"`. -/
theorem variant_resolution_witness :
    lookup (Init.vendor_load_properties
        [("ro.boot.product.cert", "M1810F6LH"), ("ro.boot.hwversion", "1.19.0")])
      "ro.product.odm.device" = some "onclite" ∧
    lookup (LibInit.vendor_load_properties
        [("ro.boot.product.cert", "M1810F6LH"), ("ro.boot.hwversion", "1.19.0")])
      "ro.product.vendor_dlkm.model" = some "Redmi Y3" :=
  ⟨((variant_resolution [("ro.boot.product.cert", "M1810F6LH"), ("ro.boot.hwversion", "1.19.0")]
      "M1810F6LH" "1.19.0" (by decide) (by decide)).1 "odm." (by decide)).2.1,
   (variant_resolution [("ro.boot.product.cert", "M1810F6LH"), ("ro.boot.hwversion", "1.19.0")]
      "M1810F6LH" "1.19.0" (by decide) (by decide)).2.2.1 "vendor_dlkm." (by decide)⟩

/-- C10: for every store, key and value, `property_override` (of `init`, and of `libinit`
with its default `add = true`) applied twice yields the same store as applied once; after it
the key maps to the value; the keys of the store are the old keys, in place, when the key
was present, and the old keys followed by the new key when it was absent, so that in a
store without duplicate keys the key occurs exactly once and no duplicate appears; and
every other key keeps its value. -/
theorem property_override_idempotent (s : PropStore) (k v : String) :
    (Init.property_override (Init.property_override s k v) k v = Init.property_override s k v ∧
      lookup (Init.property_override s k v) k = some v ∧
      keys (Init.property_override s k v) = (if k ∈ keys s then keys s else keys s ++ [k]) ∧
      ((keys s).Nodup →
        (keys (Init.property_override s k v)).Nodup ∧
        (keys (Init.property_override s k v)).count k = 1) ∧
      (∀ name : String, name ≠ k →
        lookup (Init.property_override s k v) name = lookup s name)) ∧
    (LibInit.property_override (LibInit.property_override s k v true) k v true =
        LibInit.property_override s k v true ∧
      lookup (LibInit.property_override s k v true) k = some v ∧
      keys (LibInit.property_override s k v true) =
        (if k ∈ keys s then keys s else keys s ++ [k]) ∧
      ((keys s).Nodup →
        (keys (LibInit.property_override s k v true)).Nodup ∧
        (keys (LibInit.property_override s k v true)).count k = 1) ∧
      (∀ name : String, name ≠ k →
        lookup (LibInit.property_override s k v true) name = lookup s name)) := by
  have main : Init.property_override (Init.property_override s k v) k v =
        Init.property_override s k v ∧
      lookup (Init.property_override s k v) k = some v ∧
      keys (Init.property_override s k v) = (if k ∈ keys s then keys s else keys s ++ [k]) ∧
      ((keys s).Nodup →
        (keys (Init.property_override s k v)).Nodup ∧
        (keys (Init.property_override s k v)).count k = 1) ∧
      (∀ name : String, name ≠ k →
        lookup (Init.property_override s k v) name = lookup s name) := by
    refine ⟨override_idem s k v, by simp [lookup_override], keys_override s k v, ?_, ?_⟩
    · intro hn
      exact ⟨nodup_keys_override s k v hn,
        List.count_eq_one_of_mem (nodup_keys_override s k v hn) (mem_keys_override s k v)⟩
    · intro name hne
      simp [lookup_override, hne]
  refine ⟨main, ?_⟩
  simp only [libinit_override_eq]
  exact main

/-- Witness of C10: overriding a present key of a duplicate-free store keeps it single. -/
theorem property_override_idempotent_witness :
    (keys (Init.property_override [("ro.product.model", "x"), ("a", "b")]
      "ro.product.model" "Redmi 7")).Nodup ∧
    (keys (Init.property_override [("ro.product.model", "x"), ("a", "b")]
      "ro.product.model" "Redmi 7")).count "ro.product.model" = 1 :=
  (property_override_idempotent [("ro.product.model", "x"), ("a", "b")] "ro.product.model"
    "Redmi 7").1.2.2.2.1 (by decide)

end Props
